import Mathlib

/-!
Verification of the ytify hybrid-cache backend against its specification.

The development shallowly embeds:
* `src/backend/src/services/redis.ts` — the shared-backend cache service
  (`get`, `set`, `del`, `delPattern`, `exists`, `ttl`, `incr`, `getStats`,
  and the `reconnectStrategy` used by `initRedis`);
* the `/health` endpoint shown verbatim in `src/backend/REDIS_SETUP.md`;
* `src/src/lib/modules/audioErrorHandler.ts` — the media-element error
  handler (the upstream variant the repository carries).

Machine integers are modelled with `Nat`/`Int`; the Redis server itself is
not part of the repository, so its command semantics (GET, SET, SETEX, DEL,
KEYS, EXISTS, TTL, INCR) are modelled from the specification's "standard
key-value store command semantics" as an explicit store state.  Each
service operation takes, besides the store, a `connected` flag (the
`isRedisConnected()` check) and a transport-success flag modelling whether
the underlying client call returns or throws; the functions are total, so
the embedded operations are non-throwing by construction and the theorems
pin down the sentinel values of the failure paths.
-/

namespace Redis

/-- Modelled from the spec: a stored key-value pair with its absolute
expiry time (`none` when the entry never expires), standard key-value
store semantics for entries written by SET/SETEX. -/
structure CacheEntry where
  key : String
  value : String
  expireAt : Option Nat
deriving Repr, DecidableEq

/-- Modelled from the spec: the shared backend's state, an entry list plus
the current time in seconds.  Expiry is checked lazily against `now`. -/
structure Store where
  entries : List CacheEntry
  now : Nat
deriving Repr, DecidableEq

/-- An entry is live when it has no expiry or its expiry time is still in
the future. -/
def entryLive (now : Nat) (e : CacheEntry) : Bool :=
  match e.expireAt with
  | none => true
  | some ex => now < ex

/-- Modelled from the spec: GET — the first live entry with the given key,
absent keys and expired entries read as missing. -/
def storeGet (st : Store) (k : String) : Option String :=
  (st.entries.find? (fun e => e.key == k && entryLive st.now e)).map (fun e => e.value)

/-- Remove every entry with the given key (last write wins on re-insert). -/
def storeRemoveKey (entries : List CacheEntry) (k : String) : List CacheEntry :=
  entries.filter (fun e => e.key != k)

/-- Modelled from the spec: SET — store a value with no expiry. -/
def storeSet (st : Store) (k v : String) : Store :=
  { st with entries := ⟨k, v, none⟩ :: storeRemoveKey st.entries k }

/-- Modelled from the spec: SETEX — store a value expiring `t` seconds
from now. -/
def storeSetEx (st : Store) (k : String) (t : Nat) (v : String) : Store :=
  { st with entries := ⟨k, v, some (st.now + t)⟩ :: storeRemoveKey st.entries k }

/-- Modelled from the spec: TTL — `-2` for an absent (or expired) key,
`-1` for a key with no expiry, otherwise the remaining seconds. -/
def storeTtl (st : Store) (k : String) : Int :=
  match st.entries.find? (fun e => e.key == k && entryLive st.now e) with
  | none => -2
  | some e =>
    match e.expireAt with
    | none => -1
    | some ex => (ex : Int) - (st.now : Int)

/-- Modelled from the spec: glob matching as used by the KEYS command
(`*` matches any sequence, `?` any single character, anything else
matches itself). -/
def globMatchList : List Char → List Char → Bool
  | [], s => s.isEmpty
  | '*' :: ps, s => (List.tails s).any (fun t => globMatchList ps t)
  | '?' :: ps, s =>
    match s with
    | [] => false
    | _ :: cs => globMatchList ps cs
  | p :: ps, s =>
    match s with
    | [] => false
    | c :: cs => p == c && globMatchList ps cs

/-- Glob matching on strings. -/
def globMatch (pat k : String) : Bool :=
  globMatchList pat.toList k.toList

/-- Modelled from the spec: KEYS — the keys of the live entries matching
the glob pattern. -/
def storeKeys (st : Store) (pat : String) : List String :=
  (st.entries.filter (fun e => entryLive st.now e && globMatch pat e.key)).map (fun e => e.key)

/-- Modelled from the spec: bulk DEL — remove every entry whose key is in
the given list. -/
def storeDelKeys (st : Store) (keys : List String) : Store :=
  { st with entries := st.entries.filter (fun e => !(keys.contains e.key)) }

/-- Modelled from the spec: INCR — parse the stored value as an integer
(missing or unparsable reads as 0), add one, store the result back
keeping the entry's expiry. -/
def storeIncr (st : Store) (k : String) : Int × Store :=
  let cur := (storeGet st k).bind (fun s => s.toInt?) |>.getD 0
  let ex := ((st.entries.find? (fun e => e.key == k && entryLive st.now e)).map
    (fun e => e.expireAt)).getD none
  (cur + 1, { st with entries := ⟨k, toString (cur + 1), ex⟩ :: storeRemoveKey st.entries k })

/-- Embedding of `get` from `src/backend/src/services/redis.ts`: `null`
when not connected, the caught error path also returns `null`, otherwise
the client GET result. -/
def get (connected txOk : Bool) (st : Store) (key : String) : Option String :=
  if !connected then none
  else if !txOk then none
  else storeGet st key

/-- Embedding of `set` from `src/backend/src/services/redis.ts`: `false`
when not connected or on a caught error; otherwise `if (ttlSeconds)` —
JavaScript truthiness, so `0` and `undefined` both take the plain SET
branch — selects SETEX or SET and the function returns `true`. -/
def set (connected txOk : Bool) (st : Store) (key value : String)
    (ttlSeconds : Option Nat) : Bool × Store :=
  if !connected then (false, st)
  else if !txOk then (false, st)
  else
    match ttlSeconds with
    | some t => if t ≠ 0 then (true, storeSetEx st key t value) else (true, storeSet st key value)
    | none => (true, storeSet st key value)

/-- Embedding of `del` from `src/backend/src/services/redis.ts`. -/
def del (connected txOk : Bool) (st : Store) (key : String) : Bool × Store :=
  if !connected then (false, st)
  else if !txOk then (false, st)
  else (true, { st with entries := storeRemoveKey st.entries key })

/-- Embedding of `delPattern` from `src/backend/src/services/redis.ts`:
enumerate the matching keys with KEYS, return `0` when there are none,
otherwise bulk-DEL them and return their count; `0` when not connected or
when either client call throws (the caught error path). -/
def delPattern (connected keysOk delOk : Bool) (st : Store) (pat : String) : Nat × Store :=
  if !connected then (0, st)
  else if !keysOk then (0, st)
  else
    let keys := storeKeys st pat
    if keys.length = 0 then (0, st)
    else if !delOk then (0, st)
    else (keys.length, storeDelKeys st keys)

/-- Embedding of `exists` from `src/backend/src/services/redis.ts`
(named `existsKey` here because `exists` is reserved in Lean): `false`
when not connected or on a caught error, otherwise whether the EXISTS
count equals 1. -/
def existsKey (connected txOk : Bool) (st : Store) (key : String) : Bool :=
  if !connected then false
  else if !txOk then false
  else ((if (st.entries.find? (fun e => e.key == key && entryLive st.now e)).isSome
    then (1 : Nat) else 0) == 1)

/-- Embedding of `ttl` from `src/backend/src/services/redis.ts`: `-2`
when not connected or on a caught error, otherwise the client TTL
result. -/
def ttl (connected txOk : Bool) (st : Store) (key : String) : Int :=
  if !connected then -2
  else if !txOk then -2
  else storeTtl st key

/-- Embedding of `incr` from `src/backend/src/services/redis.ts`: `0`
when not connected or on a caught error, otherwise the client INCR
result. -/
def incr (connected txOk : Bool) (st : Store) (key : String) : Int × Store :=
  if !connected then (0, st)
  else if !txOk then (0, st)
  else storeIncr st key

/-- Embedding of `getStats` from `src/backend/src/services/redis.ts`,
as the association list of returned fields; the INFO text is abstracted
away, keeping the `status` and `dbSize` fields. -/
def getStats (connected txOk : Bool) (st : Store) : List (String × String) :=
  if !connected then [("status", "disconnected")]
  else if !txOk then [("status", "error")]
  else [("status", "connected"),
        ("dbSize", toString (st.entries.filter (fun e => entryLive st.now e)).length)]

/-- The effective maximum retry count of `reconnectStrategy`: the source
computes `cfg.maxRetries || 10`, JavaScript truthiness, so an absent or
zero configuration both yield 10. -/
def effMaxRetries (cfgMax : Option Nat) : Nat :=
  match cfgMax with
  | some m => if m = 0 then 10 else m
  | none => 10

/-- Embedding of `reconnectStrategy` from `initRedis` in
`src/backend/src/services/redis.ts`: past the maximum attempt count it
returns an `Error` (which the client library takes as an instruction to
stop reconnecting), otherwise the delay `min(retries * 100, 3000)` in
milliseconds. -/
def reconnectStrategy (cfgMax : Option Nat) (retries : Nat) : Except String Nat :=
  if retries > effMaxRetries cfgMax then Except.error "Max retries exceeded"
  else Except.ok (min (retries * 100) 3000)

end Redis

/-- The JSON body returned by the `/health` endpoint. -/
structure HealthBody where
  status : String
  storage : String
  redis : String
  timestamp : String
deriving Repr, DecidableEq

/-- Embedding of the `/health` handler shown in
`src/backend/REDIS_SETUP.md`: the body fields are computed from the
storage health flag and the Redis connection flag, and the HTTP code is
200 when storage is healthy, 503 otherwise. -/
def healthHandler (healthy redisHealthy : Bool) (timestamp : String) : HealthBody × Nat :=
  ({ status := if healthy && redisHealthy then "ok" else "degraded"
     storage := if healthy then "ok" else "unhealthy"
     redis := if redisHealthy then "connected" else "disconnected"
     timestamp := timestamp },
   if healthy then 200 else 503)

namespace Audio

/-- Whether `p` occurs at the start of `s`, character-list level. -/
def startsWithList : List Char → List Char → Bool
  | [], _ => true
  | _ :: _, [] => false
  | p :: ps, c :: cs => p == c && startsWithList ps cs

/-- Whether the string ends with the given tail, the JavaScript
`String.prototype.endsWith` with one argument. -/
def strEndsWith (s post : String) : Bool :=
  startsWithList post.toList.reverse s.toList.reverse

/-- Replace the first occurrence of `pat` in `s` by `repl`; when `pat`
does not occur, the list is returned unchanged — the JavaScript
`String.prototype.replace` with a string pattern. -/
def listReplaceFirst : List Char → List Char → List Char → List Char
  | [], pat, repl => if startsWithList pat [] then repl else []
  | c :: cs, pat, repl =>
    if startsWithList pat (c :: cs) then repl ++ (c :: cs).drop pat.length
    else c :: listReplaceFirst cs pat repl

/-- String version of `listReplaceFirst`. -/
def strReplaceFirst (s pat repl : String) : String :=
  ⟨listReplaceFirst s.toList pat.toList repl.toList⟩

/-- The observable state the audio error handler reads and writes: the
media element's `src` and `dataset.retried` flag, and the store fields
`playbackState`, `status` and `snackbar` it may set. -/
structure AudioState where
  src : String
  retried : Bool
  playbackState : String
  status : String
  snackbar : String
deriving Repr, DecidableEq

/-- Embedding of the default export of
`src/src/lib/modules/audioErrorHandler.ts` (the upstream variant, lines
28 to 68).  `originOf` models the browser's `new URL(s).origin`
computation, `none` when the URL constructor throws (in which case the
handler itself throws, modelled as `none`); `proxy` is
`playerStore.proxy` with the empty string for a missing proxy;
`locationHref` is `location.href`; `prefetch` is the optional argument
(empty string when absent, matching its default).  The source's local
constants `isFallback`, `isAlreadyProxy` and `newSrc` are inlined. -/
def audioErrorHandler (originOf : String → Option String)
    (proxy locationHref : String) (isWatching : Bool) (prefetch : String)
    (a : AudioState) : Option AudioState :=
  if a.src == "" || a.src == locationHref then some a
  else
    match originOf a.src with
    | none => none
    | some origin =>
      if strEndsWith a.src "&fallback" then
        if !isWatching && prefetch == "" then
          some { a with snackbar := "Error 403 : Unauthenticated Stream", playbackState := "none" }
        else some a
      else if proxy == "" || (origin == proxy || a.retried) then
        if prefetch == "" then
          some { a with playbackState := "none", status := "Streaming Failed",
                        snackbar := "Streaming Failed" }
        else some a
      else
        if strReplaceFirst a.src origin proxy != a.src then
          some { a with retried := true, src := strReplaceFirst a.src origin proxy }
        else if prefetch == "" then
          some { a with playbackState := "none", status := "Streaming Failed" }
        else some a

end Audio

/-- Helper: `delPattern` returns count 0 whenever the KEYS call or the DEL
call fails, whatever the connection state. -/
theorem Redis.delPattern_fst_zero (c kOk dOk : Bool) (st : Redis.Store) (pat : String)
    (h : kOk = false ∨ dOk = false) : (Redis.delPattern c kOk dOk st pat).1 = 0 := by
  rcases h with h | h <;> subst h
  · cases c <;> rfl
  · cases c
    · rfl
    · cases kOk
      · rfl
      · by_cases hl : (Redis.storeKeys st pat).length = 0 <;> simp [Redis.delPattern, hl]

/-- Claim C1: every shared-backend cache operation is non-throwing (the
embedded operations are total functions) and, whenever the backend is not
connected or the underlying client call throws, returns its documented
sentinel: `get` → `none`, `set` → `false`, `del` → `false`,
`delPattern` → `0` (also when only one of its two client calls throws),
`exists` → `false`, `ttl` → `-2`, `incr` → `0`, and `getStats` reports a
`disconnected`/`error` status. -/
theorem cache_ops_failure_sentinels (connected txOk : Bool) (st : Redis.Store)
    (k v pat : String) (ttlSeconds : Option Nat)
    (h : connected = false ∨ txOk = false) :
    Redis.get connected txOk st k = none
  ∧ (Redis.set connected txOk st k v ttlSeconds).1 = false
  ∧ (Redis.del connected txOk st k).1 = false
  ∧ (Redis.delPattern connected txOk txOk st pat).1 = 0
  ∧ Redis.existsKey connected txOk st k = false
  ∧ Redis.ttl connected txOk st k = -2
  ∧ (Redis.incr connected txOk st k).1 = 0
  ∧ Redis.getStats connected txOk st =
      (if connected then [("status", "error")] else [("status", "disconnected")]) := by
  rcases h with h | h <;> subst h
  · exact ⟨rfl, rfl, rfl, rfl, rfl, rfl, rfl, rfl⟩
  · cases connected
    · exact ⟨rfl, rfl, rfl, rfl, rfl, rfl, rfl, rfl⟩
    · exact ⟨rfl, rfl, rfl, Redis.delPattern_fst_zero true false false st pat (Or.inl rfl),
        rfl, rfl, rfl, rfl⟩

/-- Witness for C1 at a concrete disconnected state. -/
theorem cache_ops_failure_sentinels_witness :
    Redis.get false true ⟨[], 0⟩ "k" = none
  ∧ Redis.ttl false true ⟨[], 0⟩ "k" = -2 :=
  ⟨(cache_ops_failure_sentinels false true ⟨[], 0⟩ "k" "v" "p" (some 5) (Or.inl rfl)).1,
   (cache_ops_failure_sentinels false true ⟨[], 0⟩ "k" "v" "p" (some 5) (Or.inl rfl)).2.2.2.2.2.1⟩

/-- Claim C2: the health endpoint's body has `status = "ok"` exactly when
storage is healthy and Redis is connected (`"degraded"` otherwise),
`storage = "ok"` exactly when storage is healthy, `redis = "connected"`
exactly when Redis is connected, and the HTTP code is 200 exactly when
storage is healthy and 503 otherwise - so Redis disconnection alone never
yields 503. -/
theorem health_endpoint_contract (healthy redisHealthy : Bool) (ts : String) :
    ((healthHandler healthy redisHealthy ts).1.status = "ok"
      ↔ (healthy = true ∧ redisHealthy = true))
  ∧ ((healthHandler healthy redisHealthy ts).1.status = "degraded"
      ↔ ¬(healthy = true ∧ redisHealthy = true))
  ∧ ((healthHandler healthy redisHealthy ts).1.storage = "ok" ↔ healthy = true)
  ∧ ((healthHandler healthy redisHealthy ts).1.redis = "connected" ↔ redisHealthy = true)
  ∧ ((healthHandler healthy redisHealthy ts).2 = 200 ↔ healthy = true)
  ∧ ((healthHandler healthy redisHealthy ts).2 = 503 ↔ healthy = false)
  ∧ (healthHandler healthy redisHealthy ts).1.timestamp = ts := by
  cases healthy <;> cases redisHealthy <;> simp [healthHandler]

/-- Claim C3: for attempt numbers up to the configured maximum (default
10 when unset) the reconnect delay is `min(n * 100, 3000)` milliseconds;
past the maximum the strategy returns an error, which abandons
reconnection permanently. -/
theorem reconnect_backoff_bound (cfgMax : Option Nat) (n : Nat) :
    (n ≤ Redis.effMaxRetries cfgMax →
      Redis.reconnectStrategy cfgMax n = Except.ok (min (n * 100) 3000))
  ∧ (Redis.effMaxRetries cfgMax < n →
      Redis.reconnectStrategy cfgMax n = Except.error "Max retries exceeded")
  ∧ Redis.effMaxRetries none = 10 := by
  refine ⟨fun h => ?_, fun h => ?_, rfl⟩
  · unfold Redis.reconnectStrategy
    rw [if_neg (by omega)]
  · unfold Redis.reconnectStrategy
    rw [if_pos (by omega)]

/-- Witness for C3: the delay of attempt 5 under the default bound, and
the error past attempt 10. -/
theorem reconnect_backoff_bound_witness :
    Redis.reconnectStrategy none 5 = Except.ok 500
  ∧ Redis.reconnectStrategy none 11 = Except.error "Max retries exceeded" :=
  ⟨(reconnect_backoff_bound none 5).1 (by decide),
   (reconnect_backoff_bound none 11).2.1 (by decide)⟩

/-- Claim C9: configuring `maxRetries = 0` does not disable reconnection:
by JavaScript truthiness (`cfg.maxRetries || 10`) it behaves exactly like
the default of 10 attempts. -/
theorem max_retries_zero_behaves_as_default (n : Nat) :
    Redis.reconnectStrategy (some 0) n = Redis.reconnectStrategy none n
  ∧ Redis.effMaxRetries (some 0) = 10
  ∧ Redis.reconnectStrategy (some 0) 10 = Except.ok 1000
  ∧ Redis.reconnectStrategy (some 0) 11 = Except.error "Max retries exceeded" :=
  ⟨rfl, rfl, rfl, rfl⟩

/-- Claim C5: while connected, `set(k, v, t)` with `t > 0` succeeds and an
immediate `get(k)` on the resulting store returns `v`. -/
theorem set_get_round_trip (st : Redis.Store) (k v : String) (t : Nat) (h : 0 < t) :
    (Redis.set true true st k v (some t)).1 = true
  ∧ Redis.get true true (Redis.set true true st k v (some t)).2 k = some v := by
  have ht : t ≠ 0 := Nat.pos_iff_ne_zero.mp h
  have hset : Redis.set true true st k v (some t) = (true, Redis.storeSetEx st k t v) := by
    simp [Redis.set, ht]
  refine ⟨by rw [hset], ?_⟩
  rw [hset]
  simp [Redis.get, Redis.storeGet, Redis.storeSetEx, Redis.entryLive, h]

/-- Witness for C5 on the empty store. -/
theorem set_get_round_trip_witness :
    (Redis.set true true ⟨[], 0⟩ "k" "v" (some 1)).1 = true
  ∧ Redis.get true true (Redis.set true true ⟨[], 0⟩ "k" "v" (some 1)).2 "k" = some "v" :=
  set_get_round_trip ⟨[], 0⟩ "k" "v" 1 (by decide)

/-- Claim C8: while connected, `set(k, v, 0)` takes the plain SET path
(JavaScript truthiness on the TTL argument), exactly as an absent TTL
does: the call reports success and the stored entry never expires, so a
`get(k)` at any later time still returns `v`. -/
theorem set_zero_ttl_never_expires (st : Redis.Store) (k v : String) :
    Redis.set true true st k v (some 0) = Redis.set true true st k v none
  ∧ (Redis.set true true st k v (some 0)).1 = true
  ∧ ∀ t2 : Nat, Redis.get true true ⟨(Redis.set true true st k v (some 0)).2.entries, t2⟩ k
      = some v := by
  refine ⟨rfl, rfl, fun t2 => ?_⟩
  show Redis.get true true ⟨(Redis.storeSet st k v).entries, t2⟩ k = some v
  simp [Redis.get, Redis.storeGet, Redis.storeSet, Redis.entryLive]

/-- Claim C7: `ttl` is `-2` when disconnected or on a caught error, `-2`
for an absent key, `-1` for a live key without expiry, and the remaining
seconds for a live key with an expiry time. -/
theorem ttl_three_way_semantics (st : Redis.Store) (k : String) (txOk : Bool) :
    Redis.ttl false txOk st k = -2
  ∧ Redis.ttl true false st k = -2
  ∧ (st.entries.find? (fun e => e.key == k && Redis.entryLive st.now e) = none →
      Redis.ttl true true st k = -2)
  ∧ (∀ e, st.entries.find? (fun e => e.key == k && Redis.entryLive st.now e) = some e →
      e.expireAt = none → Redis.ttl true true st k = -1)
  ∧ (∀ e ex, st.entries.find? (fun e => e.key == k && Redis.entryLive st.now e) = some e →
      e.expireAt = some ex → Redis.ttl true true st k = (ex : Int) - (st.now : Int)) := by
  refine ⟨rfl, rfl, fun hf => ?_, fun e hf he => ?_, fun e ex hf he => ?_⟩
  · simp [Redis.ttl, Redis.storeTtl, hf]
  · simp [Redis.ttl, Redis.storeTtl, hf, he]
  · simp [Redis.ttl, Redis.storeTtl, hf, he]

/-- Witness for C7: a no-expiry key, an expiring key, an absent key, and
the disconnected sentinel, on a concrete store at time 2. -/
theorem ttl_three_way_semantics_witness :
    Redis.ttl true true ⟨[⟨"a", "1", none⟩, ⟨"b", "2", some 7⟩], 2⟩ "a" = -1
  ∧ Redis.ttl true true ⟨[⟨"a", "1", none⟩, ⟨"b", "2", some 7⟩], 2⟩ "b" = 5
  ∧ Redis.ttl true true ⟨[⟨"a", "1", none⟩, ⟨"b", "2", some 7⟩], 2⟩ "c" = -2
  ∧ Redis.ttl false true ⟨[⟨"a", "1", none⟩, ⟨"b", "2", some 7⟩], 2⟩ "a" = -2 :=
  ⟨(ttl_three_way_semantics ⟨[⟨"a", "1", none⟩, ⟨"b", "2", some 7⟩], 2⟩ "a" true).2.2.2.1
      ⟨"a", "1", none⟩ (by decide) rfl,
   (ttl_three_way_semantics ⟨[⟨"a", "1", none⟩, ⟨"b", "2", some 7⟩], 2⟩ "b" true).2.2.2.2
      ⟨"b", "2", some 7⟩ 7 (by decide) rfl,
   (ttl_three_way_semantics ⟨[⟨"a", "1", none⟩, ⟨"b", "2", some 7⟩], 2⟩ "c" true).2.2.1
      (by decide),
   (ttl_three_way_semantics ⟨[⟨"a", "1", none⟩, ⟨"b", "2", some 7⟩], 2⟩ "a" true).1⟩

/-- Helper: in a store whose keys are pairwise distinct, the KEYS result
contains an entry's key exactly when that entry is live and matches the
pattern. -/
theorem Redis.storeKeys_contains_eq (st : Redis.Store) (pat : String)
    (hnd : (st.entries.map Redis.CacheEntry.key).Nodup)
    (e : Redis.CacheEntry) (he : e ∈ st.entries) :
    (Redis.storeKeys st pat).contains e.key
      = (Redis.entryLive st.now e && Redis.globMatch pat e.key) := by
  cases hb : (Redis.entryLive st.now e && Redis.globMatch pat e.key)
  · cases hcb : (Redis.storeKeys st pat).contains e.key
    · rfl
    · exfalso
      have hmem : e.key ∈ Redis.storeKeys st pat := List.elem_iff.mp hcb
      obtain ⟨e2, he2f, hkey⟩ := List.mem_map.mp hmem
      obtain ⟨he2mem, hPe2⟩ := List.mem_filter.mp he2f
      have heq : e2 = e := List.inj_on_of_nodup_map hnd he2mem he hkey
      rw [heq] at hPe2
      rw [hPe2] at hb
      exact Bool.noConfusion hb
  · have hmem : e.key ∈ Redis.storeKeys st pat :=
      List.mem_map.mpr ⟨e, List.mem_filter.mpr ⟨he, hb⟩, rfl⟩
    exact List.elem_iff.mpr hmem

/-- Helper: removing the live entries matching a pattern does not change
the result of a lookup for a key the pattern does not match. -/
theorem Redis.find?_filter_unmatched (now : Nat) (pat k2 : String)
    (h : Redis.globMatch pat k2 = false) (l : List Redis.CacheEntry) :
    (l.filter (fun e => !(Redis.entryLive now e && Redis.globMatch pat e.key))).find?
        (fun e => e.key == k2 && Redis.entryLive now e)
      = l.find? (fun e => e.key == k2 && Redis.entryLive now e) := by
  induction l with
  | nil => rfl
  | cons e l ih =>
    cases hb : (Redis.entryLive now e && Redis.globMatch pat e.key)
    · rw [List.filter_cons_of_pos (by simp [hb])]
      cases hp : (e.key == k2 && Redis.entryLive now e)
      · rw [List.find?_cons_of_neg _ (by simp [hp]), List.find?_cons_of_neg _ (by simp [hp])]
        exact ih
      · rw [List.find?_cons_of_pos _ (by simp [hp]), List.find?_cons_of_pos _ (by simp [hp])]
    · have hk : (e.key == k2) = false := by
        cases hk2 : e.key == k2
        · rfl
        · exfalso
          have heq : e.key = k2 := eq_of_beq hk2
          rw [heq, h] at hb
          simp at hb
      rw [List.filter_cons_of_neg (by simp [hb]),
          List.find?_cons_of_neg _ (by simp [hk])]
      exact ih

/-- Helper: on a connected backend with successful client calls,
`delPattern` returns the number of live matching entries, its resulting
entry list is the original one with exactly the live matching entries
removed, and the clock is unchanged. -/
theorem Redis.delPattern_connected_spec (st : Redis.Store) (pat : String)
    (hnd : (st.entries.map Redis.CacheEntry.key).Nodup) :
    (Redis.delPattern true true true st pat).1
      = (st.entries.filter
          (fun e => Redis.entryLive st.now e && Redis.globMatch pat e.key)).length
  ∧ (Redis.delPattern true true true st pat).2.entries
      = st.entries.filter
          (fun e => !(Redis.entryLive st.now e && Redis.globMatch pat e.key))
  ∧ (Redis.delPattern true true true st pat).2.now = st.now := by
  have hlen : (Redis.storeKeys st pat).length
      = (st.entries.filter
          (fun e => Redis.entryLive st.now e && Redis.globMatch pat e.key)).length := by
    unfold Redis.storeKeys
    exact List.length_map _ _
  by_cases h0 : (Redis.storeKeys st pat).length = 0
  · have hnil : st.entries.filter
        (fun e => Redis.entryLive st.now e && Redis.globMatch pat e.key) = [] :=
      List.length_eq_zero.mp (hlen ▸ h0)
    have hdp : Redis.delPattern true true true st pat = (0, st) := by
      simp [Redis.delPattern, h0]
    rw [hdp]
    refine ⟨by simp [hnil], ?_, rfl⟩
    symm
    apply List.filter_eq_self.mpr
    intro a ha
    have hna : ¬ (Redis.entryLive st.now a && Redis.globMatch pat a.key) = true :=
      (List.filter_eq_nil_iff.mp hnil) a ha
    simp only [Bool.not_eq_true] at hna
    simp [hna]
  · have hdp : Redis.delPattern true true true st pat
        = ((Redis.storeKeys st pat).length, Redis.storeDelKeys st (Redis.storeKeys st pat)) := by
      simp [Redis.delPattern, h0]
    rw [hdp]
    refine ⟨hlen, ?_, rfl⟩
    show st.entries.filter (fun e => !((Redis.storeKeys st pat).contains e.key)) = _
    apply List.filter_congr
    intro e he
    rw [Redis.storeKeys_contains_eq st pat hnd e he]

/-- Claim C4: on a connected backend (distinct keys), `delPattern` deletes
exactly the live entries whose keys match the pattern and returns their
count (0 when nothing matches), and a lookup of any non-matching key is
unchanged. -/
theorem delPattern_deletes_exactly_matching (st : Redis.Store) (pat : String)
    (hnd : (st.entries.map Redis.CacheEntry.key).Nodup) :
    (Redis.delPattern true true true st pat).1
      = (st.entries.filter
          (fun e => Redis.entryLive st.now e && Redis.globMatch pat e.key)).length
  ∧ (Redis.delPattern true true true st pat).2.entries
      = st.entries.filter
          (fun e => !(Redis.entryLive st.now e && Redis.globMatch pat e.key))
  ∧ ∀ k2, Redis.globMatch pat k2 = false →
      Redis.get true true (Redis.delPattern true true true st pat).2 k2
        = Redis.get true true st k2 := by
  obtain ⟨h1, h2, h3⟩ := Redis.delPattern_connected_spec st pat hnd
  refine ⟨h1, h2, fun k2 hk2 => ?_⟩
  show Redis.storeGet (Redis.delPattern true true true st pat).2 k2 = Redis.storeGet st k2
  unfold Redis.storeGet
  rw [h2, h3, Redis.find?_filter_unmatched st.now pat k2 hk2 st.entries]

/-- Witness for C4: the specification's example — three entries, pattern
deletion of the two matching keys reports 2, and the non-matching key
still reads its value. -/
theorem delPattern_deletes_exactly_matching_witness :
    (Redis.delPattern true true true
        ⟨[⟨"a:1", "x", none⟩, ⟨"a:2", "y", none⟩, ⟨"b:1", "z", none⟩], 0⟩ "a:*").1 = 2
  ∧ Redis.get true true (Redis.delPattern true true true
        ⟨[⟨"a:1", "x", none⟩, ⟨"a:2", "y", none⟩, ⟨"b:1", "z", none⟩], 0⟩ "a:*").2 "b:1"
      = some "z" :=
  ⟨by
    rw [(delPattern_deletes_exactly_matching
      ⟨[⟨"a:1", "x", none⟩, ⟨"a:2", "y", none⟩, ⟨"b:1", "z", none⟩], 0⟩ "a:*" (by decide)).1]
    decide,
   by
    rw [(delPattern_deletes_exactly_matching
      ⟨[⟨"a:1", "x", none⟩, ⟨"a:2", "y", none⟩, ⟨"b:1", "z", none⟩], 0⟩ "a:*"
      (by decide)).2.2 "b:1" (by decide)]
    decide⟩

/-- Claim C6: from the caller's point of view `delPattern` is
all-or-nothing — either it reports 0 (and the store is unchanged), or it
removes every live matching entry it enumerated and reports that full
count; a partial positive count is impossible. -/
theorem delPattern_all_or_nothing (connected keysOk delOk : Bool)
    (st : Redis.Store) (pat : String)
    (hnd : (st.entries.map Redis.CacheEntry.key).Nodup) :
    ((Redis.delPattern connected keysOk delOk st pat).1 = 0
      ∧ (Redis.delPattern connected keysOk delOk st pat).2 = st)
  ∨ ((Redis.delPattern connected keysOk delOk st pat).1
      = (st.entries.filter
          (fun e => Redis.entryLive st.now e && Redis.globMatch pat e.key)).length
    ∧ (Redis.delPattern connected keysOk delOk st pat).2.entries
      = st.entries.filter
          (fun e => !(Redis.entryLive st.now e && Redis.globMatch pat e.key))) := by
  cases connected
  · exact Or.inl ⟨rfl, rfl⟩
  cases keysOk
  · exact Or.inl ⟨rfl, rfl⟩
  cases delOk
  · refine Or.inl ⟨Redis.delPattern_fst_zero true true false st pat (Or.inr rfl), ?_⟩
    by_cases h0 : (Redis.storeKeys st pat).length = 0 <;> simp [Redis.delPattern, h0]
  · exact Or.inr ⟨(Redis.delPattern_connected_spec st pat hnd).1,
      (Redis.delPattern_connected_spec st pat hnd).2.1⟩

/-- Witness for C6: a failing DEL call on a one-entry store. -/
theorem delPattern_all_or_nothing_witness :
    ((Redis.delPattern true true false ⟨[⟨"a:1", "x", none⟩], 0⟩ "a:*").1 = 0
      ∧ (Redis.delPattern true true false ⟨[⟨"a:1", "x", none⟩], 0⟩ "a:*").2
        = ⟨[⟨"a:1", "x", none⟩], 0⟩)
  ∨ ((Redis.delPattern true true false ⟨[⟨"a:1", "x", none⟩], 0⟩ "a:*").1
      = (Redis.Store.entries ⟨[⟨"a:1", "x", none⟩], 0⟩ |>.filter
          (fun e => Redis.entryLive 0 e && Redis.globMatch "a:*" e.key)).length
    ∧ (Redis.delPattern true true false ⟨[⟨"a:1", "x", none⟩], 0⟩ "a:*").2.entries
      = (Redis.Store.entries ⟨[⟨"a:1", "x", none⟩], 0⟩ |>.filter
          (fun e => !(Redis.entryLive 0 e && Redis.globMatch "a:*" e.key)))) :=
  delPattern_all_or_nothing true true false ⟨[⟨"a:1", "x", none⟩], 0⟩ "a:*" (by decide)

/-- Counterexample to claim C10 as stated: `dataset.retried` persists on
the element while the player may assign it new sources, and for a
retried element whose current source is a fallback URL, invoked while
watching with no prefetch, the handler returns the state entirely
unchanged — `audio.src` is indeed unchanged, but `playbackState` is not
set to `none` and `status` is not set to `Streaming Failed`, against the
claim's unconditional consequence for non-prefetch invocations. -/
theorem audio_retry_status_counterexample :
    Audio.audioErrorHandler (fun _ => some "https://o.ex") "https://p.ex" "L"
        true "" ⟨"https://o.ex/s&fallback", true, "paused", "prior", ""⟩
      = some ⟨"https://o.ex/s&fallback", true, "paused", "prior", ""⟩
  ∧ ("prior" : String) ≠ "Streaming Failed"
  ∧ ("paused" : String) ≠ "none" :=
  ⟨by decide, by decide, by decide⟩

/-- Claim C10 (amended): the handler rewrites `src` at most once per
element — a `src` change only happens when a proxy is configured, the
element is not yet marked retried, its origin differs from the proxy and
the replacement changes the URL, and the rewrite marks the element
retried; an invocation on a retried element never changes `src`, and
when additionally not prefetching — provided the source is a non-empty
URL different from the page location and not a fallback URL — sets
`playbackState` to `none` and `status` to `Streaming Failed` instead of
retrying. -/
theorem audio_rewrite_at_most_once (originOf : String → Option String)
    (proxy locationHref : String) (isWatching : Bool) (prefetch : String)
    (a a2 : Audio.AudioState)
    (h : Audio.audioErrorHandler originOf proxy locationHref isWatching prefetch a = some a2) :
    (a2.src ≠ a.src →
      proxy ≠ "" ∧ a.retried = false ∧ a2.retried = true
      ∧ ∃ origin, originOf a.src = some origin ∧ origin ≠ proxy
          ∧ a2.src = Audio.strReplaceFirst a.src origin proxy)
  ∧ (a.retried = true → a2.src = a.src)
  ∧ (a.retried = true → prefetch = "" → a.src ≠ "" → a.src ≠ locationHref →
      Audio.strEndsWith a.src "&fallback" = false →
      a2.playbackState = "none" ∧ a2.status = "Streaming Failed") := by
  unfold Audio.audioErrorHandler at h
  split at h
  · rename_i h1
    injection h with hh
    subst hh
    simp only [Bool.or_eq_true, beq_iff_eq] at h1
    refine ⟨fun hs => absurd rfl hs, fun _ => rfl, fun _ _ hne hnl _ => ?_⟩
    rcases h1 with h1 | h1
    · exact absurd h1 hne
    · exact absurd h1 hnl
  · rename_i h1
    split at h
    · exact Option.noConfusion h
    · rename_i origin ho
      split at h
      · rename_i hf
        split at h <;> injection h with hh <;> subst hh <;>
          refine ⟨fun hs => absurd rfl hs, fun _ => rfl, fun _ _ _ _ hfb => ?_⟩ <;>
          rw [hfb] at hf <;> exact Bool.noConfusion hf
      · rename_i hf
        split at h
        · rename_i hpx
          split at h <;> injection h with hh <;> subst hh
          · exact ⟨fun hs => absurd rfl hs, fun _ => rfl, fun _ _ _ _ _ => ⟨rfl, rfl⟩⟩
          · rename_i hpf
            refine ⟨fun hs => absurd rfl hs, fun _ => rfl, fun _ hpf2 _ _ _ => ?_⟩
            exact absurd (by simp [hpf2]) hpf
        · rename_i hpx
          simp only [Bool.or_eq_true, beq_iff_eq, not_or, Bool.not_eq_true] at hpx
          obtain ⟨hpx1, hpx2, hpx3⟩ := hpx
          split at h
          · rename_i hns
            injection h with hh
            subst hh
            refine ⟨fun _ => ⟨hpx1, hpx3, rfl, origin, ho, hpx2, rfl⟩,
              fun hr => ?_, fun hr _ _ _ _ => ?_⟩
            · rw [hpx3] at hr; exact Bool.noConfusion hr
            · rw [hpx3] at hr; exact Bool.noConfusion hr
          · rename_i hns
            split at h <;> injection h with hh <;> subst hh <;>
              refine ⟨fun hs => absurd rfl hs, fun _ => rfl, fun hr _ _ _ _ => ?_⟩ <;>
              rw [hpx3] at hr <;> exact Bool.noConfusion hr

/-- Witness for the amended claim C10: a concrete second invocation on an
element already rewritten to the proxy origin leaves `src` unchanged and
marks streaming as failed. -/
theorem audio_rewrite_at_most_once_witness :
    (⟨"https://p.ex/v", true, "none", "Streaming Failed", "Streaming Failed"⟩
        : Audio.AudioState).src
      = (⟨"https://p.ex/v", true, "playing", "prior", ""⟩ : Audio.AudioState).src
  ∧ (⟨"https://p.ex/v", true, "none", "Streaming Failed", "Streaming Failed"⟩
        : Audio.AudioState).playbackState = "none"
  ∧ (⟨"https://p.ex/v", true, "none", "Streaming Failed", "Streaming Failed"⟩
        : Audio.AudioState).status = "Streaming Failed" :=
  ⟨(audio_rewrite_at_most_once (fun _ => some "https://p.ex") "https://p.ex" "L" false ""
      ⟨"https://p.ex/v", true, "playing", "prior", ""⟩
      ⟨"https://p.ex/v", true, "none", "Streaming Failed", "Streaming Failed"⟩
      (by decide)).2.1 rfl,
   ((audio_rewrite_at_most_once (fun _ => some "https://p.ex") "https://p.ex" "L" false ""
      ⟨"https://p.ex/v", true, "playing", "prior", ""⟩
      ⟨"https://p.ex/v", true, "none", "Streaming Failed", "Streaming Failed"⟩
      (by decide)).2.2 rfl rfl (by decide) (by decide) (by decide)).1,
   ((audio_rewrite_at_most_once (fun _ => some "https://p.ex") "https://p.ex" "L" false ""
      ⟨"https://p.ex/v", true, "playing", "prior", ""⟩
      ⟨"https://p.ex/v", true, "none", "Streaming Failed", "Streaming Failed"⟩
      (by decide)).2.2 rfl rfl (by decide) (by decide) (by decide)).2⟩
